import Mathlib

/-!
Verification of the gaze-detector core pipeline.

The definitions below are a shallow embedding of the Python sources:
`VideoThread` in `src/video_thread.py` (geometry utilities, gaze smoother,
saccade/fixation segmenter, focus state tracker, capture-loop frame step)
and `DatabaseManager` in `src/database_manager.py` (session persistence).

Timestamps (`QDateTime` values and Python `datetime` values) are modelled as
integer milliseconds; `QDateTime.secsTo` is whole-second truncating division,
as in Qt. Python floats are modelled as rationals except where a square root
occurs (the geometry of `get_blinking_ratio`), where real numbers are used.
-/

namespace GazeDetector

/-- `QDateTime.secsTo`: whole seconds from time `a` to time `b`, both in
milliseconds; C++ integer division truncates toward zero. -/
def secsTo (a b : ℤ) : ℤ := (b - a).tdiv 1000

/-- Gaze directions published in `focus_data["direction"]`. -/
inductive Direction
  | LEFT
  | CENTER
  | RIGHT
  | UNKNOWN
deriving DecidableEq

/-! ## Saccade/fixation segmenter (`VideoThread.track_gaze_changes`) -/

/-- `self.gaze_change_threshold = 0.8`. -/
def gaze_change_threshold : ℚ := 4/5

/-- `self.min_fixation_duration = 0.3` (seconds). -/
def min_fixation_duration : ℚ := 3/10

/-- `self.saccade_confirmation_threshold = 2`. -/
def saccade_confirmation_threshold : ℤ := 2

/-- The eye-movement (segmenter) part of `VideoThread`'s state. -/
structure EyeState where
  tracking : Bool
  gaze_ratio_changes : List ℚ
  fixation_durations : List ℤ
  last_gaze_ratio : Option ℚ
  fixation_start_time : Option ℤ
  in_fixation : Bool
  saccade_confirmation_count : ℤ
deriving DecidableEq

/-- The segmenter state as `VideoThread.__init__` (with
`reset_eye_movement_data`) leaves it, for a given tracking flag. -/
def initEyeState (tracking : Bool) : EyeState :=
  { tracking := tracking
    gaze_ratio_changes := []
    fixation_durations := []
    last_gaze_ratio := none
    fixation_start_time := none
    in_fixation := false
    saccade_confirmation_count := 0 }

/-- `VideoThread.track_gaze_changes(gaze_ratio)` at time `now`.
Returns `none` when the Python code would raise (calling `.secsTo` on a
`None` fixation start time). -/
def track_gaze_changes (s : EyeState) (gaze_ratio : ℚ) (now : ℤ) : Option EyeState :=
  if s.tracking = false then some s
  else
    match s.last_gaze_ratio with
    | none =>
        some { s with last_gaze_ratio := some gaze_ratio,
                      fixation_start_time := some now, in_fixation := true }
    | some last =>
        let ratio_change := |gaze_ratio - last|
        if ratio_change > gaze_change_threshold then
          let s1 : EyeState :=
            { s with saccade_confirmation_count := s.saccade_confirmation_count + 1 }
          if s1.saccade_confirmation_count ≥ saccade_confirmation_threshold then
            let s2 : EyeState :=
              { s1 with gaze_ratio_changes := s1.gaze_ratio_changes ++ [ratio_change] }
            let after_fixation : Option EyeState :=
              if s2.in_fixation then
                match s2.fixation_start_time with
                | none => none
                | some t0 =>
                    let fixation_duration := secsTo t0 now
                    if (fixation_duration : ℚ) ≥ min_fixation_duration then
                      some { s2 with
                        fixation_durations := s2.fixation_durations ++ [fixation_duration] }
                    else some s2
              else some s2
            match after_fixation with
            | none => none
            | some s3 =>
                some { s3 with fixation_start_time := some now, in_fixation := true,
                               saccade_confirmation_count := 0,
                               last_gaze_ratio := some gaze_ratio }
          else
            some { s1 with last_gaze_ratio := some gaze_ratio }
        else
          some { s with saccade_confirmation_count := 0,
                        last_gaze_ratio := some gaze_ratio }

/-! ## Focus state tracker (`VideoThread.update_focus_data`,
`VideoThread.start_tracking`) -/

/-- The focus-tracking part of `VideoThread`'s state, together with the
published `focus_data` dictionary (the `fd_` fields). -/
structure FocusState where
  tracking : Bool
  paused : Bool
  is_focused : Bool
  focus_start_time : ℤ
  distraction_start_time : Option ℤ
  distraction_periods : List ℤ
  distraction_count : ℤ
  fd_focused : Bool
  fd_direction : Direction
  fd_blinking : Bool
  fd_focus_duration : ℤ
  fd_avg_distraction_time : ℚ
deriving DecidableEq

/-- The focus state as `VideoThread.__init__` leaves it, with the thread
created at time `t0`. -/
def initFocusState (t0 : ℤ) : FocusState :=
  { tracking := false
    paused := false
    is_focused := true
    focus_start_time := t0
    distraction_start_time := none
    distraction_periods := []
    distraction_count := 0
    fd_focused := true
    fd_direction := Direction.CENTER
    fd_blinking := false
    fd_focus_duration := 0
    fd_avg_distraction_time := 0 }

/-- `VideoThread.update_focus_data(is_looking_at_screen, is_blinking,
gaze_direction)` at time `now`. -/
def update_focus_data (s : FocusState) (is_looking_at_screen is_blinking : Bool)
    (gaze_direction : Direction) (now : ℤ) : FocusState :=
  if s.tracking = false then s
  else if s.paused = true then s
  else
    let s1 : FocusState :=
      if is_looking_at_screen = true ∧ s.is_focused = false then
        let s0 : FocusState :=
          match s.distraction_start_time with
          | some t =>
              { s with distraction_periods := s.distraction_periods ++ [secsTo t now],
                       distraction_start_time := none }
          | none => s
        { s0 with is_focused := true, focus_start_time := now }
      else if is_looking_at_screen = false ∧ s.is_focused = true then
        { s with is_focused := false, distraction_start_time := some now,
                 distraction_count := s.distraction_count + 1 }
      else s
    let focus_duration : ℤ :=
      if s1.is_focused then secsTo s1.focus_start_time now else 0
    let avg_distraction : ℚ :=
      if s1.distraction_periods = [] then 0
      else (s1.distraction_periods.map (fun d => (d : ℚ))).sum / s1.distraction_periods.length
    { s1 with fd_focused := is_looking_at_screen, fd_direction := gaze_direction,
              fd_blinking := is_blinking, fd_focus_duration := focus_duration,
              fd_avg_distraction_time := avg_distraction }

/-- `VideoThread.start_tracking()` at time `now` (the focus-tracking effect;
the emitted signal carries the unchanged `focus_data`). -/
def start_tracking (s : FocusState) (now : ℤ) : FocusState :=
  let s1 : FocusState := { s with tracking := true }
  if s1.is_focused = false then
    { s1 with is_focused := true, focus_start_time := now,
              distraction_start_time := none }
  else s1

/-! ## Gaze smoother and direction classification (`VideoThread.run`,
lines 215-233) -/

/-- One smoother update: `self.gaze_ratio_history.append(gaze_ratio)` then
`pop(0)` once the length exceeds 10. -/
def pushSample (history : List ℚ) (gaze_ratio : ℚ) : List ℚ :=
  let h := history ++ [gaze_ratio]
  if h.length > 10 then h.tail else h

/-- `avg_gaze_ratio = sum(self.gaze_ratio_history)/len(self.gaze_ratio_history)`. -/
def avgGazeRatio (history : List ℚ) : ℚ := history.sum / history.length

/-- Direction classification of the smoothed gaze ratio, with the
`is_looking_at_screen` flag: the per-frame defaults are `CENTER`/`true`, the
branches overwrite them exactly as in `VideoThread.run`. -/
def classify (avg_gaze_ratio : ℚ) : Direction × Bool :=
  if avg_gaze_ratio < 9/20 then (Direction.RIGHT, false)
  else if 9/20 ≤ avg_gaze_ratio ∧ avg_gaze_ratio ≤ 11/2 then (Direction.CENTER, true)
  else (Direction.LEFT, false)

/-! ## Geometry utilities (`VideoThread.midpoint`, `VideoThread.get_blinking_ratio`,
`VideoThread.get_gaze_ratio`)

Landmark points are integer pixel coordinates `(x, y)`. An eye is given by
six landmark points, indexed 0-5 as in the `eye_points` lists of the code. -/

/-- `VideoThread.midpoint`: `int((p1.x + p2.x)/2), int((p1.y + p2.y)/2)`;
Python `int()` truncates toward zero. -/
def midpoint (p q : ℤ × ℤ) : ℤ × ℤ :=
  ((p.1 + q.1).tdiv 2, (p.2 + q.2).tdiv 2)

/-- `math.hypot` of the coordinate differences of two points. -/
noncomputable def lineLength (p q : ℤ × ℤ) : ℝ :=
  Real.sqrt (((p.1 - q.1) ^ 2 + (p.2 - q.2) ^ 2 : ℤ) : ℝ)

/-- `ver_line_length` of `get_blinking_ratio`: distance between the midpoint
of points 1,2 (top lid) and the midpoint of points 5,4 (bottom lid). -/
noncomputable def ver_line_length (pts : Fin 6 → ℤ × ℤ) : ℝ :=
  lineLength (midpoint (pts 1) (pts 2)) (midpoint (pts 5) (pts 4))

/-- `hor_line_length` of `get_blinking_ratio`: distance between the eye
corners, points 0 and 3. -/
noncomputable def hor_line_length (pts : Fin 6 → ℤ × ℤ) : ℝ :=
  lineLength (pts 0) (pts 3)

/-- `VideoThread.get_blinking_ratio`:
`hor_line_length/ver_line_length if ver_line_length > 0 else 1`. -/
noncomputable def get_blinking_ratio (pts : Fin 6 → ℤ × ℤ) : ℝ :=
  if ver_line_length pts > 0 then hor_line_length pts / ver_line_length pts else 1

/-- `np.min` over the x coordinates of the six eye-region points. -/
def regionMinX (pts : Fin 6 → ℤ × ℤ) : ℤ :=
  ((List.ofFn pts).map Prod.fst).foldl min (pts 0).1

/-- `np.max` over the x coordinates of the six eye-region points. -/
def regionMaxX (pts : Fin 6 → ℤ × ℤ) : ℤ :=
  ((List.ofFn pts).map Prod.fst).foldl max (pts 0).1

/-- `np.min` over the y coordinates of the six eye-region points. -/
def regionMinY (pts : Fin 6 → ℤ × ℤ) : ℤ :=
  ((List.ofFn pts).map Prod.snd).foldl min (pts 0).2

/-- `np.max` over the y coordinates of the six eye-region points. -/
def regionMaxY (pts : Fin 6 → ℤ × ℤ) : ℤ :=
  ((List.ofFn pts).map Prod.snd).foldl max (pts 0).2

/-- The bounds check of `get_gaze_ratio`:
`min_x < max_x and min_y < max_y and min_x >= 0 and min_y >= 0 and
max_x < width and max_y < height`. -/
def regionInFrame (pts : Fin 6 → ℤ × ℤ) (width height : ℤ) : Prop :=
  regionMinX pts < regionMaxX pts ∧ regionMinY pts < regionMaxY pts ∧
    0 ≤ regionMinX pts ∧ 0 ≤ regionMinY pts ∧
    regionMaxX pts < width ∧ regionMaxY pts < height

instance (pts : Fin 6 → ℤ × ℤ) (width height : ℤ) :
    Decidable (regionInFrame pts width height) := by
  unfold regionInFrame; infer_instance

/-- `cv2.countNonZero` over a rectangle of the thresholded masked eye:
a pixel is white (255) exactly when the polygon mask covers it and the
grayscale value exceeds the fixed threshold 70 (`cv2.threshold(..., 70, 255,
cv2.THRESH_BINARY)` applied to `cv2.bitwise_and(gray, gray, mask=mask)`).
Rows are `[y0, y1)`, columns `[x0, x1)`. -/
def countWhite (gray : ℤ → ℤ → ℕ) (mask : ℤ → ℤ → Bool) (y0 y1 x0 x1 : ℤ) : ℕ :=
  (((Finset.Ico y0 y1) ×ˢ (Finset.Ico x0 x1)).filter
    (fun p => mask p.1 p.2 = true ∧ 70 < gray p.1 p.2)).card

/-- `left_side_white`: white pixels of the crop's columns `[0, int(width/2))`,
in absolute coordinates `[min_x, min_x + (max_x - min_x)/2)`. -/
def left_side_white (pts : Fin 6 → ℤ × ℤ) (gray : ℤ → ℤ → ℕ) (mask : ℤ → ℤ → Bool) : ℕ :=
  countWhite gray mask (regionMinY pts) (regionMaxY pts)
    (regionMinX pts) (regionMinX pts + (regionMaxX pts - regionMinX pts).tdiv 2)

/-- `right_side_white`: white pixels of the crop's columns
`[int(width/2), width)`. -/
def right_side_white (pts : Fin 6 → ℤ × ℤ) (gray : ℤ → ℤ → ℕ) (mask : ℤ → ℤ → Bool) : ℕ :=
  countWhite gray mask (regionMinY pts) (regionMaxY pts)
    (regionMinX pts + (regionMaxX pts - regionMinX pts).tdiv 2)
    (regionMinX pts + (regionMaxX pts - regionMinX pts))

/-- `VideoThread.get_gaze_ratio` for one eye region. `gray` is the grayscale
frame, `mask` the rasterized eye polygon (`cv2.polylines`/`cv2.fillPoly`,
treated as an opaque external capability). Mirrors the guards of the code:
the bounds check, `gray_eye.size > 0`, and `width > 1`; every failing guard
returns the neutral default 1. -/
def get_gaze_ratio (pts : Fin 6 → ℤ × ℤ) (width height : ℤ)
    (gray : ℤ → ℤ → ℕ) (mask : ℤ → ℤ → Bool) : ℚ :=
  if regionInFrame pts width height then
    if 0 < (regionMaxY pts - regionMinY pts) * (regionMaxX pts - regionMinX pts) then
      if 1 < regionMaxX pts - regionMinX pts then
        if left_side_white pts gray mask = 0 then 1
        else if right_side_white pts gray mask = 0 then 5
        else (left_side_white pts gray mask : ℚ) / (right_side_white pts gray mask : ℚ)
      else 1
    else 1
  else 1

/-! ## Capture-loop frame step (`VideoThread.run`, per-frame processing) -/

/-- The capture-loop state: segmenter state, focus state, the smoother
history, and the loop-local Python variable `avg_gaze_ratio` (unbound, i.e.
`none`, until the first non-blinking face frame assigns it). -/
structure LoopState where
  eye : EyeState
  focus : FocusState
  gaze_ratio_history : List ℚ
  avg_gaze_ratio : Option ℚ
deriving DecidableEq

/-- What one captured frame yields after face detection: no face, or one face
with its computed blinking ratio (average of both eyes) and the raw gaze
ratio (average of both eyes) that `get_gaze_ratio` would produce. -/
inductive FrameInput
  | noFace
  | face (blinking_ratio : ℚ) (raw_gaze_ratio : ℚ)
deriving DecidableEq

/-- `blinking_ratio > 5.2` threshold of `VideoThread.run`. -/
def blink_threshold : ℚ := 26/5

/-- One iteration of the `while self.running` loop of `VideoThread.run` (the
non-paused path), at time `now`. Returns `none` when the Python code would
raise a `NameError` (`self.track_gaze_changes(avg_gaze_ratio)` with
`avg_gaze_ratio` never assigned). On a blinking frame the gaze computation is
skipped, the per-frame defaults `is_looking_at_screen=True`,
`gaze_direction="CENTER"` stand, and `track_gaze_changes` is called with the
loop-local `avg_gaze_ratio` from an earlier iteration. -/
def processFrame (s : LoopState) (inp : FrameInput) (now : ℤ) : Option LoopState :=
  match inp with
  | FrameInput.noFace =>
      some { s with focus := update_focus_data s.focus false false Direction.UNKNOWN now }
  | FrameInput.face blinking_ratio raw_gaze_ratio =>
      if blinking_ratio > blink_threshold then
        match s.avg_gaze_ratio with
        | none => none
        | some stale_avg =>
            match track_gaze_changes s.eye stale_avg now with
            | none => none
            | some eye1 =>
                some { s with
                        eye := eye1,
                        focus := update_focus_data s.focus true true Direction.CENTER now }
      else
        let history := pushSample s.gaze_ratio_history raw_gaze_ratio
        let avg := avgGazeRatio history
        let dir_look := classify avg
        match track_gaze_changes s.eye avg now with
        | none => none
        | some eye1 =>
            some { s with
                    eye := eye1,
                    gaze_ratio_history := history,
                    avg_gaze_ratio := some avg,
                    focus := update_focus_data s.focus dir_look.2 false dir_look.1 now }

/-- The loop state of a fresh `VideoThread` (created at time `t0`) on which
`start_tracking` has been called at `t0`. -/
def initLoopState (t0 : ℤ) : LoopState :=
  { eye := initEyeState true
    focus := start_tracking (initFocusState t0) t0
    gaze_ratio_history := []
    avg_gaze_ratio := none }

/-! ## Failure semantics (`VideoThread.__init__` lines 29-34,
`VideoThread.run` lines 164-185, 280-281) -/

/-- What an exit terminates: the capture unit alone (Python `return`/`break`
out of `run`) or the whole process (`sys.exit`). -/
inductive ExitScope
  | captureUnitOnly
  | wholeProcess
deriving DecidableEq

/-- `VideoThread.__init__`'s landmark-model load: on `RuntimeError` the code
prints an error and calls `sys.exit(1)`; `none` means construction succeeded
and nothing exits. -/
def predictorInitExit (model_file_loads : Bool) : Option ExitScope :=
  if model_file_loads then none else some ExitScope.wholeProcess

/-- Why the `while self.running` loop stopped. -/
inductive LoopExit
  | openFailure
  | readFailure
  | stopped
deriving DecidableEq

/-- The read loop over the successive `cap.read()` results: the first failed
read hits `break` (a single failure terminates the loop, no retry); an
exhausted list is the `self.running` flag being cleared by `stop()`. -/
def loopReadExit : List Bool → LoopExit
  | [] => LoopExit.stopped
  | ok :: rest => if ok then loopReadExit rest else LoopExit.readFailure

/-- The observable outcome of `VideoThread.run`. -/
structure RunOutcome where
  exitScope : ExitScope
  loopExit : LoopExit
  cameraReleased : Bool
deriving DecidableEq

/-- Control flow of `VideoThread.run`: if the camera fails to open, `run`
prints and returns before the loop and before `cap.release()`; otherwise the
loop runs over the reads and `cap.release()` executes after it. `run` never
calls `sys.exit`, so its exits terminate the capture unit only. -/
def runExit (camera_opens : Bool) (reads : List Bool) : RunOutcome :=
  if camera_opens then
    { exitScope := ExitScope.captureUnitOnly
      loopExit := loopReadExit reads
      cameraReleased := true }
  else
    { exitScope := ExitScope.captureUnitOnly
      loopExit := LoopExit.openFailure
      cameraReleased := false }

/-! ## Session store (`DatabaseManager.save_session`,
`DatabaseManager.get_session_details`)

`datetime` timestamps are integer milliseconds; their `isoformat()`/
`datetime.fromisoformat` round trip is the identity and preserves order, so
the `TEXT` columns hold the timestamp value itself. -/

/-- One entry of the `focus_points` time series as the application hands it
to `save_session` and as `get_session_details` returns it. -/
structure FocusPoint where
  timestamp : ℤ
  is_focused : Bool
  gaze_direction : String
deriving DecidableEq

/-- The `session_data` dictionary passed to `save_session`, typed as the
application builds it (`FocusTrackerApp.end_session`: `duration`,
`distraction_count` and `longest_focus_period` are Python ints,
`avg_distraction_time` and `focus_percentage` floats), with the serialized
`focus_data` snapshot list as an opaque JSON string. -/
structure SessionData where
  start_time : ℤ
  end_time : ℤ
  duration : ℤ
  distraction_count : ℤ
  avg_distraction_time : ℚ
  focus_percentage : ℚ
  longest_focus_period : ℤ
  focus_data : String
  focus_points : List FocusPoint
deriving DecidableEq

/-- A row of the `sessions` table. -/
structure SessionRow where
  id : ℕ
  start_time : ℤ
  end_time : ℤ
  duration : ℤ
  distraction_count : ℤ
  avg_distraction_time : ℚ
  focus_percentage : ℚ
  longest_focus_period : ℤ
  focus_data : String
deriving DecidableEq

/-- A row of the `focus_points` table (`is_focused` stored as `1` or `0`). -/
structure PointRow where
  session_id : ℕ
  timestamp : ℤ
  is_focused : ℤ
  gaze_direction : String
deriving DecidableEq

/-- The SQLite database: both tables in rowid (insertion) order, and the
next `AUTOINCREMENT` id of `sessions`. -/
structure Database where
  sessions : List SessionRow
  points : List PointRow
  next_session_id : ℕ
deriving DecidableEq

/-- What `get_session_details` returns: the summary columns of the session
row plus the focus-point time series (the eye-movement part is keyed
separately and not modelled here). -/
structure SessionDetails where
  id : ℕ
  start_time : ℤ
  end_time : ℤ
  duration : ℤ
  distraction_count : ℤ
  avg_distraction_time : ℚ
  focus_percentage : ℚ
  longest_focus_period : ℤ
  focus_data : String
  focus_points : List FocusPoint
deriving DecidableEq

/-- `DatabaseManager.save_session`: inserts the summary row (the `int()` and
`float()` coercions are the identity on the already-int/float fields), then
inserts every focus point in order (the batching by 50 only splits the
commits, not the order), and returns the new session id. -/
def save_session (db : Database) (d : SessionData) : Database × ℕ :=
  let sid := db.next_session_id
  let row : SessionRow :=
    { id := sid
      start_time := d.start_time
      end_time := d.end_time
      duration := d.duration
      distraction_count := d.distraction_count
      avg_distraction_time := d.avg_distraction_time
      focus_percentage := d.focus_percentage
      longest_focus_period := d.longest_focus_period
      focus_data := d.focus_data }
  let prows := d.focus_points.map (fun p =>
    ({ session_id := sid
       timestamp := p.timestamp
       is_focused := if p.is_focused then 1 else 0
       gaze_direction := p.gaze_direction } : PointRow))
  ({ sessions := db.sessions ++ [row]
     points := db.points ++ prows
     next_session_id := sid + 1 }, sid)

/-- `DatabaseManager.get_session_details(session_id)`: select the session
row by id, and the session's focus points `ORDER BY timestamp` (modelled as
a stable sort of the rows in rowid order), mapping `is_focused` back through
Python `bool`. -/
def get_session_details (db : Database) (sid : ℕ) : Option SessionDetails :=
  match db.sessions.find? (fun r => r.id == sid) with
  | none => none
  | some row =>
      let prows := (db.points.filter (fun p => p.session_id == sid)).mergeSort
        (fun p q => p.timestamp ≤ q.timestamp)
      some
        { id := row.id
          start_time := row.start_time
          end_time := row.end_time
          duration := row.duration
          distraction_count := row.distraction_count
          avg_distraction_time := row.avg_distraction_time
          focus_percentage := row.focus_percentage
          longest_focus_period := row.longest_focus_period
          focus_data := row.focus_data
          focus_points := prows.map (fun p =>
            ({ timestamp := p.timestamp
               is_focused := p.is_focused != (0 : ℤ)
               gaze_direction := p.gaze_direction } : FocusPoint)) }

/-! ## Theorems -/

/-- Claim C3: for every smoothed gaze ratio `r`, the classification is RIGHT
(not on-screen) iff `r < 0.45`, CENTER (on-screen) iff `0.45 ≤ r ≤ 5.5`,
LEFT (not on-screen) iff `r > 5.5`, and the boundary values 0.45 and 5.5
classify as CENTER. -/
theorem classify_direction_spec (r : ℚ) :
    ((classify r).1 = Direction.RIGHT ↔ r < 9/20) ∧
    ((classify r).1 = Direction.CENTER ↔ 9/20 ≤ r ∧ r ≤ 11/2) ∧
    ((classify r).1 = Direction.LEFT ↔ 11/2 < r) ∧
    ((classify r).2 = true ↔ (classify r).1 = Direction.CENTER) ∧
    (classify (9/20 : ℚ)).1 = Direction.CENTER ∧
    (classify (11/2 : ℚ)).1 = Direction.CENTER := by
  have hb1 : (classify (9/20 : ℚ)).1 = Direction.CENTER := by norm_num [classify]
  have hb2 : (classify (11/2 : ℚ)).1 = Direction.CENTER := by norm_num [classify]
  refine ⟨?_, ?_, ?_, ?_, hb1, hb2⟩ <;>
    · unfold classify
      split_ifs with h1 h2 <;> push_neg at * <;> simp_all <;> linarith

/-- Claim C8: the gaze smoother's history never exceeds 10 samples: a push
appends the sample and evicts the oldest one exactly when the new length
exceeds 10; the exposed value is the arithmetic mean of the retained
samples, and eleven samples equal to 1 yield mean 1 over the last 10. -/
theorem smoother_fifo_spec :
    (∀ (h : List ℚ) (x : ℚ), h.length ≤ 10 → (pushSample h x).length ≤ 10) ∧
    (∀ (h : List ℚ) (x : ℚ), (h ++ [x]).length > 10 →
      pushSample h x = (h ++ [x]).tail) ∧
    (∀ (h : List ℚ) (x : ℚ), ¬ (h ++ [x]).length > 10 → pushSample h x = h ++ [x]) ∧
    List.foldl pushSample [] (List.replicate 11 (1 : ℚ)) = List.replicate 10 1 ∧
    avgGazeRatio (List.foldl pushSample [] (List.replicate 11 (1 : ℚ))) = 1 := by
  have hfold : List.foldl pushSample [] (List.replicate 11 (1 : ℚ)) =
      List.replicate 10 1 := by decide
  refine ⟨?_, ?_, ?_, hfold, ?_⟩
  · intro h x hlen
    simp only [pushSample]
    split_ifs with hgt
    · simp only [List.length_tail, List.length_append, List.length_singleton]
      omega
    · simp only [List.length_append, List.length_singleton] at hgt ⊢
      omega
  · intro h x hgt
    simp only [pushSample]
    rw [if_pos hgt]
  · intro h x hle
    simp only [pushSample]
    rw [if_neg hle]
  · rw [hfold]
    norm_num [avgGazeRatio, List.sum_replicate]

/-- Claim C8 witness: pushing onto a full 10-sample history keeps the length
within 10, and a push onto a short history is a plain append. -/
theorem smoother_fifo_spec_witness :
    (pushSample (List.replicate 10 (1 : ℚ)) 2).length ≤ 10 ∧
    pushSample [] (1 : ℚ) = [1] :=
  ⟨smoother_fifo_spec.1 (List.replicate 10 1) 2 (by decide),
   smoother_fifo_spec.2.2.1 [] 1 (by decide)⟩

/-- Claim C7 counterexample: a landmark-model load failure calls
`sys.exit(1)`, terminating the whole process, not only the capture unit; and
on a camera-open failure `run` returns before `cap.release()`, so the camera
release is not executed on that path. -/
theorem resource_failure_cex :
    predictorInitExit false = some ExitScope.wholeProcess ∧
    ExitScope.wholeProcess ≠ ExitScope.captureUnitOnly ∧
    (runExit false []).cameraReleased = false := by decide

/-- Claim C7 amended: a camera-open failure and a single frame-read failure
terminate only the capture unit (the process keeps running); the camera is
released whenever it was opened, but the open-failure path skips the
release; a landmark-model load failure exits the whole process. -/
theorem resource_failure_amended :
    (∀ reads : List Bool, runExit false reads =
      { exitScope := ExitScope.captureUnitOnly, loopExit := LoopExit.openFailure,
        cameraReleased := false }) ∧
    (∀ reads : List Bool, (runExit true reads).exitScope = ExitScope.captureUnitOnly ∧
      (runExit true reads).cameraReleased = true) ∧
    (∀ (n : ℕ) (rest : List Bool),
      loopReadExit (List.replicate n true ++ false :: rest) = LoopExit.readFailure) ∧
    predictorInitExit false = some ExitScope.wholeProcess ∧
    predictorInitExit true = none := by
  refine ⟨fun reads => by simp [runExit], fun reads => by simp [runExit], ?_, rfl, rfl⟩
  intro n rest
  induction n with
  | zero => simp [loopReadExit]
  | succ k ih => simpa [List.replicate_succ, loopReadExit] using ih

/-- Claim C10: calling `start_tracking` while not focused sets the state to
focused with the focus interval starting now, clears the pending distraction
start without appending its elapsed duration, and leaves the distraction
durations, the distraction count and the average distraction time
unchanged. -/
theorem start_tracking_resume_spec (s : FocusState) (now : ℤ)
    (h : s.is_focused = false) :
    (start_tracking s now).tracking = true ∧
    (start_tracking s now).is_focused = true ∧
    (start_tracking s now).focus_start_time = now ∧
    (start_tracking s now).distraction_start_time = none ∧
    (start_tracking s now).distraction_periods = s.distraction_periods ∧
    (start_tracking s now).distraction_count = s.distraction_count ∧
    (start_tracking s now).fd_avg_distraction_time = s.fd_avg_distraction_time := by
  simp [start_tracking, h]

/-- A not-focused state with an open distraction interval, as left by a
distracted frame: used to instantiate the `start_tracking` theorem. -/
def resumeState : FocusState :=
  { initFocusState 0 with
      tracking := true
      is_focused := false
      distraction_start_time := some 5000
      distraction_periods := [3]
      distraction_count := 2
      fd_avg_distraction_time := 3 }

/-- Claim C10 witness: resuming from `resumeState` at time 9000 keeps the
distraction statistics and drops the open interval. -/
theorem start_tracking_resume_witness :
    (start_tracking resumeState 9000).distraction_periods = [3] ∧
    (start_tracking resumeState 9000).distraction_count = 2 ∧
    (start_tracking resumeState 9000).fd_avg_distraction_time = 3 ∧
    (start_tracking resumeState 9000).is_focused = true ∧
    (start_tracking resumeState 9000).focus_start_time = 9000 ∧
    (start_tracking resumeState 9000).distraction_start_time = none := by
  obtain ⟨h1, h2, h3, h4, h5, h6, h7⟩ :=
    start_tracking_resume_spec resumeState 9000 rfl
  exact ⟨h5, h6, h7, h2, h3, h4⟩

/-- Claim C1: one segmenter step on an incoming smoothed ratio while
tracking and mid-stream (a previous ratio and a current fixation exist).
With `delta = |ratio - last_ratio|`: if `delta > 0.8` the confirmation
counter increments and, once it reaches 2, the saccade magnitude `delta` is
recorded, the fixation duration is recorded exactly when it is at least 0.3
seconds, a new fixation starts now and the counter resets; if
`delta ≤ 0.8` the counter resets with no event; `last_ratio` becomes the
incoming ratio in every case. -/
theorem segmenter_step_spec (s : EyeState) (r : ℚ) (now : ℤ) (last : ℚ) (t0 : ℤ)
    (htr : s.tracking = true) (hlast : s.last_gaze_ratio = some last)
    (hfix : s.in_fixation = true) (ht0 : s.fixation_start_time = some t0) :
    ∃ s1, track_gaze_changes s r now = some s1 ∧
      s1.last_gaze_ratio = some r ∧
      (|r - last| > gaze_change_threshold →
        s.saccade_confirmation_count + 1 ≥ saccade_confirmation_threshold →
        s1.gaze_ratio_changes = s.gaze_ratio_changes ++ [|r - last|] ∧
        (min_fixation_duration ≤ ((secsTo t0 now : ℤ) : ℚ) →
          s1.fixation_durations = s.fixation_durations ++ [secsTo t0 now]) ∧
        (((secsTo t0 now : ℤ) : ℚ) < min_fixation_duration →
          s1.fixation_durations = s.fixation_durations) ∧
        s1.fixation_start_time = some now ∧ s1.in_fixation = true ∧
        s1.saccade_confirmation_count = 0) ∧
      (|r - last| > gaze_change_threshold →
        s.saccade_confirmation_count + 1 < saccade_confirmation_threshold →
        s1.saccade_confirmation_count = s.saccade_confirmation_count + 1 ∧
        s1.gaze_ratio_changes = s.gaze_ratio_changes ∧
        s1.fixation_durations = s.fixation_durations ∧
        s1.fixation_start_time = s.fixation_start_time) ∧
      (¬ |r - last| > gaze_change_threshold →
        s1.saccade_confirmation_count = 0 ∧
        s1.gaze_ratio_changes = s.gaze_ratio_changes ∧
        s1.fixation_durations = s.fixation_durations ∧
        s1.fixation_start_time = s.fixation_start_time) := by
  by_cases hc : |r - last| > gaze_change_threshold
  · by_cases hn : s.saccade_confirmation_count + 1 ≥ saccade_confirmation_threshold
    · by_cases hd : min_fixation_duration ≤ ((secsTo t0 now : ℤ) : ℚ)
      · have hstep : track_gaze_changes s r now = some
            { s with gaze_ratio_changes := s.gaze_ratio_changes ++ [|r - last|],
                     fixation_durations := s.fixation_durations ++ [secsTo t0 now],
                     fixation_start_time := some now, in_fixation := true,
                     saccade_confirmation_count := 0,
                     last_gaze_ratio := some r } := by
          simp [track_gaze_changes, htr, hlast, hfix, ht0, hc, hn, hd]
        refine ⟨_, hstep, by simp, ?_, ?_, ?_⟩
        · exact fun _ _ => ⟨by simp, fun _ => by simp,
            fun hlt => absurd hd (not_le.mpr hlt), by simp, by simp, by simp⟩
        · intro _ hlt; exact absurd hn (not_le.mpr hlt)
        · intro h; exact absurd hc h
      · have hstep : track_gaze_changes s r now = some
            { s with gaze_ratio_changes := s.gaze_ratio_changes ++ [|r - last|],
                     fixation_start_time := some now, in_fixation := true,
                     saccade_confirmation_count := 0,
                     last_gaze_ratio := some r } := by
          simp [track_gaze_changes, htr, hlast, hfix, ht0, hc, hn, hd]
        refine ⟨_, hstep, by simp, ?_, ?_, ?_⟩
        · exact fun _ _ => ⟨by simp, fun hge => absurd hge hd, fun _ => by simp,
            by simp, by simp, by simp⟩
        · intro _ hlt; exact absurd hn (not_le.mpr hlt)
        · intro h; exact absurd hc h
    · have hstep : track_gaze_changes s r now = some
          { s with saccade_confirmation_count := s.saccade_confirmation_count + 1,
                   last_gaze_ratio := some r } := by
        simp [track_gaze_changes, htr, hlast, hc, hn]
      refine ⟨_, hstep, by simp, ?_, ?_, ?_⟩
      · intro _ hge; exact absurd hge hn
      · exact fun _ _ => ⟨by simp, by simp, by simp, by simp⟩
      · intro h; exact absurd hc h
  · have hstep : track_gaze_changes s r now = some
        { s with saccade_confirmation_count := 0, last_gaze_ratio := some r } := by
      simp [track_gaze_changes, htr, hlast, hc]
    refine ⟨_, hstep, by simp, ?_, ?_, ?_⟩
    · intro h; exact absurd h hc
    · intro h; exact absurd h hc
    · exact fun _ => ⟨by simp, by simp, by simp, by simp⟩

/-- A mid-stream segmenter state: one over-threshold frame already seen
(confirmation counter 1), fixation running since time 0. -/
def segState : EyeState :=
  { tracking := true
    gaze_ratio_changes := []
    fixation_durations := []
    last_gaze_ratio := some 1
    fixation_start_time := some 0
    in_fixation := true
    saccade_confirmation_count := 1 }

/-- Claim C1 witness: from `segState`, the sample 2 at time 1000 (delta 1,
second consecutive over-threshold frame, fixation of 1 second) records the
saccade of magnitude 1 and the fixation of duration 1. -/
theorem segmenter_step_spec_witness :
    ∃ s1, track_gaze_changes segState 2 1000 = some s1 ∧
      s1.gaze_ratio_changes = [1] ∧ s1.fixation_durations = [1] ∧
      s1.fixation_start_time = some 1000 ∧ s1.saccade_confirmation_count = 0 ∧
      s1.last_gaze_ratio = some 2 := by
  obtain ⟨s1, hstep, hlast, hconf, -, -⟩ :=
    segmenter_step_spec segState 2 1000 1 0 rfl rfl rfl rfl
  have hdelta : |(2 : ℚ) - 1| > gaze_change_threshold := by
    norm_num [gaze_change_threshold]
  have hcount : segState.saccade_confirmation_count + 1 ≥
      saccade_confirmation_threshold := by decide
  have hdur : secsTo 0 1000 = 1 := by decide
  obtain ⟨hch, hfd, -, hfs, -, hcnt⟩ := hconf hdelta hcount
  refine ⟨s1, hstep, ?_, ?_, hfs, hcnt, hlast⟩
  · rw [hch]
    norm_num [segState]
  · have := hfd (by rw [hdur]; norm_num [min_fixation_duration])
    rw [this, hdur]
    norm_num [segState]

/-- The test sequence of claim C2: focused, focused, distracted, distracted,
focused at 1-second spacing, each frame fed to `update_focus_data`. -/
def focusScenarioInputs : List (Bool × ℤ) :=
  [(true, 0), (true, 1000), (false, 2000), (false, 3000), (true, 4000)]

/-- The focus state after running the C2 test sequence from a fresh tracker
on which `start_tracking` was called at time 0. -/
def focusScenario : FocusState :=
  focusScenarioInputs.foldl
    (fun s p => update_focus_data s p.1 false
      (if p.1 then Direction.CENTER else Direction.LEFT) p.2)
    (start_tracking (initFocusState 0) 0)

/-- Claim C2: while tracking, the focus tracker closes a distraction
interval exactly on a not-focused-to-focused transition (appending the
elapsed seconds, clearing the distraction start), opens one exactly on a
focused-to-not-focused transition (incrementing the count), reports
`focus_duration = now - focus_start` when focused and 0 otherwise and
`avg_distraction_time` as the mean of the completed durations or 0 when
none; the sequence focused, focused, distracted, distracted, focused at
1-second spacing yields one distraction interval of 2 seconds, average 2.0
and count 1. -/
theorem focus_tracker_spec (s : FocusState) (now t : ℤ) (blinking : Bool)
    (dir : Direction) (htr : s.tracking = true) (hp : s.paused = false) :
    ((s.is_focused = false → s.distraction_start_time = some t →
      (update_focus_data s true blinking dir now).distraction_periods
          = s.distraction_periods ++ [secsTo t now] ∧
      (update_focus_data s true blinking dir now).distraction_start_time = none ∧
      (update_focus_data s true blinking dir now).is_focused = true ∧
      (update_focus_data s true blinking dir now).focus_start_time = now ∧
      (update_focus_data s true blinking dir now).distraction_count
          = s.distraction_count)) ∧
    (s.is_focused = true →
      (update_focus_data s false blinking dir now).is_focused = false ∧
      (update_focus_data s false blinking dir now).distraction_start_time = some now ∧
      (update_focus_data s false blinking dir now).distraction_count
          = s.distraction_count + 1 ∧
      (update_focus_data s false blinking dir now).distraction_periods
          = s.distraction_periods) ∧
    (∀ looking : Bool, s.is_focused = looking →
      (update_focus_data s looking blinking dir now).distraction_periods
          = s.distraction_periods ∧
      (update_focus_data s looking blinking dir now).distraction_count
          = s.distraction_count ∧
      (update_focus_data s looking blinking dir now).distraction_start_time
          = s.distraction_start_time) ∧
    (∀ looking : Bool,
      ((update_focus_data s looking blinking dir now).is_focused = looking) ∧
      (looking = true →
        (update_focus_data s looking blinking dir now).fd_focus_duration =
          secsTo (update_focus_data s looking blinking dir now).focus_start_time now) ∧
      (looking = false →
        (update_focus_data s looking blinking dir now).fd_focus_duration = 0)) ∧
    (∀ looking : Bool,
      ((update_focus_data s looking blinking dir now).distraction_periods = [] →
        (update_focus_data s looking blinking dir now).fd_avg_distraction_time = 0) ∧
      ((update_focus_data s looking blinking dir now).distraction_periods ≠ [] →
        (update_focus_data s looking blinking dir now).fd_avg_distraction_time =
          ((update_focus_data s looking blinking dir now).distraction_periods.map
            (fun d => (d : ℚ))).sum /
          (update_focus_data s looking blinking dir now).distraction_periods.length)) ∧
    focusScenario.distraction_periods = [2] ∧
    focusScenario.distraction_count = 1 ∧
    focusScenario.fd_avg_distraction_time = 2 := by
  refine ⟨?_, ?_, ?_, ?_, ?_, by decide, by decide, ?_⟩
  · intro hnf hds
    simp [update_focus_data, htr, hp, hnf, hds]
  · intro hf
    simp [update_focus_data, htr, hp, hf]
  · intro looking hlook
    cases looking <;> simp_all [update_focus_data, htr, hp]
  · intro looking
    cases looking <;> cases hf : s.is_focused <;>
      cases hds : s.distraction_start_time <;>
        simp_all [update_focus_data, htr, hp]
  · intro looking
    constructor <;> intro hper <;>
      cases looking <;> cases hf : s.is_focused <;>
        cases hds : s.distraction_start_time <;>
          simp_all [update_focus_data, htr, hp]
  · have hform : focusScenario = update_focus_data
        (List.foldl
          (fun s p => update_focus_data s p.1 false
            (if p.1 then Direction.CENTER else Direction.LEFT) p.2)
          (start_tracking (initFocusState 0) 0)
          [(true, 0), (true, 1000), (false, 2000), (false, 3000)])
        true false Direction.CENTER 4000 := rfl
    set s4 := List.foldl
        (fun s p => update_focus_data s p.1 false
          (if p.1 then Direction.CENTER else Direction.LEFT) p.2)
        (start_tracking (initFocusState 0) 0)
        [(true, 0), (true, 1000), (false, 2000), (false, 3000)] with hs4
    have h4tr : s4.tracking = true := by decide
    have h4pa : s4.paused = false := by decide
    have h4f : s4.is_focused = false := by decide
    have h4ds : s4.distraction_start_time = some 2000 := by decide
    have h4p : s4.distraction_periods = [] := by decide
    have hsec : secsTo 2000 4000 = 2 := by decide
    rw [hform]
    simp [update_focus_data, h4tr, h4pa, h4f, h4ds, h4p, hsec]

/-- A tracking state currently distracted since time 1000, to instantiate
the focus-tracker theorem. -/
def distractedState : FocusState :=
  { initFocusState 0 with
      tracking := true
      is_focused := false
      distraction_start_time := some 1000 }

/-- Claim C2 witness: a focused frame at time 3000 on `distractedState`
closes the interval opened at 1000 as a completed 2-second distraction. -/
theorem focus_tracker_spec_witness :
    (update_focus_data distractedState true false Direction.CENTER 3000).distraction_periods
        = [2] ∧
    (update_focus_data distractedState true false Direction.CENTER 3000).distraction_start_time
        = none ∧
    (update_focus_data distractedState true false Direction.CENTER 3000).is_focused
        = true := by
  obtain ⟨h1, -, -, -, -, -, -, -⟩ :=
    focus_tracker_spec distractedState 3000 1000 false Direction.CENTER rfl rfl
  obtain ⟨hper, hds, hf, -, -⟩ := h1 rfl rfl
  have hsec : secsTo 1000 3000 = 2 := by decide
  refine ⟨?_, hds, hf⟩
  rw [hper, hsec]
  decide

/-- A loop state whose last non-blinking frame left the loop-local
`avg_gaze_ratio` at 5 while the segmenter's last ratio is 1 with the
confirmation counter already at 1. -/
def blinkLoopState : LoopState :=
  { eye :=
      { initEyeState true with
          last_gaze_ratio := some 1
          fixation_start_time := some 0
          in_fixation := true
          saccade_confirmation_count := 1 }
    focus := start_tracking (initFocusState 0) 0
    gaze_ratio_history := [5]
    avg_gaze_ratio := some 5 }

/-- Claim C4 (code bug): contrary to the spec, a blinking face frame does
feed the segmenter. From the fresh state, the very first face frame being a
blink (`blinking_ratio = 6 > 5.2`) evaluates the unassigned loop-local
`avg_gaze_ratio` — a `NameError`, modelled as `none`; and from
`blinkLoopState` a blink frame steps the segmenter with the stale smoothed
ratio, recording a saccade of magnitude 4 during the blink. -/
theorem blinking_frame_feeds_segmenter :
    processFrame (initLoopState 0) (FrameInput.face 6 1) 1000 = none ∧
    ∃ s1, processFrame blinkLoopState (FrameInput.face 6 1) 1000 = some s1 ∧
      s1.eye.gaze_ratio_changes = [4] ∧
      s1.eye.fixation_durations = [1] ∧
      s1.eye.fixation_start_time = some 1000 := by
  have hb : blink_threshold < (6 : ℚ) := by norm_num [blink_threshold]
  have h1 : |(5 : ℚ) - 1| > gaze_change_threshold := by
    norm_num [gaze_change_threshold]
  have hsec : secsTo 0 1000 = 1 := by decide
  have h3 : min_fixation_duration ≤ ((secsTo 0 1000 : ℤ) : ℚ) := by
    rw [hsec]; norm_num [min_fixation_duration]
  have htrack : track_gaze_changes blinkLoopState.eye 5 1000 = some
      { blinkLoopState.eye with
          gaze_ratio_changes := [|(5 : ℚ) - 1|]
          fixation_durations := [secsTo 0 1000]
          fixation_start_time := some 1000
          in_fixation := true
          saccade_confirmation_count := 0
          last_gaze_ratio := some 5 } := by
    simp [track_gaze_changes, blinkLoopState, initEyeState, h1, h3,
      saccade_confirmation_threshold]
  have hform : processFrame blinkLoopState (FrameInput.face 6 1) 1000 =
      (match track_gaze_changes blinkLoopState.eye 5 1000 with
        | none => none
        | some eye1 =>
            some { blinkLoopState with
                    eye := eye1,
                    focus := update_focus_data blinkLoopState.focus true true
                      Direction.CENTER 1000 }) := by
    simp only [processFrame]
    rw [if_pos hb]
    rfl
  have hres : processFrame blinkLoopState (FrameInput.face 6 1) 1000 = some
      { blinkLoopState with
          eye := { blinkLoopState.eye with
                    gaze_ratio_changes := [|(5 : ℚ) - 1|]
                    fixation_durations := [secsTo 0 1000]
                    fixation_start_time := some 1000
                    in_fixation := true
                    saccade_confirmation_count := 0
                    last_gaze_ratio := some 5 }
          focus := update_focus_data blinkLoopState.focus true true
            Direction.CENTER 1000 } := by
    rw [hform, htrack]
  constructor
  · simp [processFrame, initLoopState, hb]
  · refine ⟨_, hres, ?_, ?_, ?_⟩
    · have h4 : |(5 : ℚ) - 1| = 4 := by norm_num
      simp [h4]
    · simp [hsec]
    · simp

/-- A degenerate six-point eye: both lid midpoints coincide at `(1, 1)`
(vertical distance 0) while the corners `(0, 0)` and `(2, 0)` are 2 apart. -/
def blinkExPts : Fin 6 → ℤ × ℤ
  | 0 => (0, 0)
  | 1 => (1, 1)
  | 2 => (1, 1)
  | 3 => (2, 0)
  | 4 => (1, 1)
  | 5 => (1, 1)

/-- The vertical midpoint distance of `blinkExPts` is 0. -/
theorem ver_blinkExPts : ver_line_length blinkExPts = 0 := by
  have h12 : midpoint (blinkExPts 1) (blinkExPts 2) = (1, 1) := by decide
  have h54 : midpoint (blinkExPts 5) (blinkExPts 4) = (1, 1) := by decide
  unfold ver_line_length
  rw [h12, h54]
  unfold lineLength
  norm_num [Real.sqrt_zero]

/-- The horizontal corner distance of `blinkExPts` is 2. -/
theorem hor_blinkExPts : hor_line_length blinkExPts = 2 := by
  have h0 : blinkExPts 0 = (0, 0) := rfl
  have h3 : blinkExPts 3 = (2, 0) := rfl
  unfold hor_line_length
  rw [h0, h3]
  unfold lineLength
  norm_num
  rw [show (4 : ℝ) = 2 ^ 2 by norm_num, Real.sqrt_sq (by norm_num : (0:ℝ) ≤ 2)]

/-- Claim C5 counterexample: on `blinkExPts` the vertical distance is 0 and
the horizontal length is 2, yet `get_blinking_ratio` returns 1, not the
horizontal length as the claim states. -/
theorem blink_ratio_guard_cex :
    ver_line_length blinkExPts = 0 ∧
    hor_line_length blinkExPts = 2 ∧
    get_blinking_ratio blinkExPts = 1 ∧
    get_blinking_ratio blinkExPts ≠ hor_line_length blinkExPts := by
  have hr : get_blinking_ratio blinkExPts = 1 := by
    unfold get_blinking_ratio
    rw [ver_blinkExPts]
    norm_num
  exact ⟨ver_blinkExPts, hor_blinkExPts, hr, by rw [hr, hor_blinkExPts]; norm_num⟩

/-- Claim C5 amended: `blink_ratio` returns the horizontal eye-corner
distance divided by the vertical midpoint distance, and when the vertical
midpoint distance is 0 it returns the constant 1 (not the horizontal
length) instead of dividing by zero. -/
theorem blink_ratio_guard_amended (pts : Fin 6 → ℤ × ℤ) :
    (ver_line_length pts > 0 →
      get_blinking_ratio pts = hor_line_length pts / ver_line_length pts) ∧
    (ver_line_length pts = 0 → get_blinking_ratio pts = 1) := by
  constructor
  · intro h
    unfold get_blinking_ratio
    rw [if_pos h]
  · intro h
    unfold get_blinking_ratio
    rw [if_neg]
    rw [h]
    exact lt_irrefl 0

/-- Claim C5 amended witness: the degenerate eye `blinkExPts` takes the
zero-vertical branch and returns 1. -/
theorem blink_ratio_guard_witness : get_blinking_ratio blinkExPts = 1 :=
  (blink_ratio_guard_amended blinkExPts).2 ver_blinkExPts

/-- Claim C6: `gaze_ratio` returns 1 on every degenerate bounding box, and
on an in-frame box it returns the left/right white-pixel ratio of the
vertically split thresholded eye crop with the exact sentinels: 1 when the
left half has no white pixel, 5 when the right half has none while the left
does. (A width-1 in-frame box takes the code's `width > 1` guard to the
default 1, which coincides with the sentinel 1: its left half is empty.) -/
theorem gaze_ratio_sentinels_spec (pts : Fin 6 → ℤ × ℤ) (width height : ℤ)
    (gray : ℤ → ℤ → ℕ) (mask : ℤ → ℤ → Bool) :
    (¬ regionInFrame pts width height →
      get_gaze_ratio pts width height gray mask = 1) ∧
    (regionInFrame pts width height →
      get_gaze_ratio pts width height gray mask =
        (if left_side_white pts gray mask = 0 then 1
          else if right_side_white pts gray mask = 0 then 5
          else (left_side_white pts gray mask : ℚ) /
            (right_side_white pts gray mask : ℚ))) := by
  constructor
  · intro h
    unfold get_gaze_ratio
    rw [if_neg h]
  · intro h
    unfold get_gaze_ratio
    rw [if_pos h]
    obtain ⟨hx, hy, -, -, -, -⟩ := h
    have hw : 0 < regionMaxX pts - regionMinX pts := sub_pos.mpr hx
    have hh : 0 < regionMaxY pts - regionMinY pts := sub_pos.mpr hy
    rw [if_pos (mul_pos hh hw)]
    by_cases h1 : 1 < regionMaxX pts - regionMinX pts
    · rw [if_pos h1]
    · rw [if_neg h1]
      have hw1 : regionMaxX pts - regionMinX pts = 1 := by omega
      have hl : left_side_white pts gray mask = 0 := by
        unfold left_side_white countWhite
        rw [hw1]
        rw [show (1 : ℤ).tdiv 2 = 0 from rfl]
        simp
      rw [hl]
      simp

/-- A degenerate eye region: all six landmarks at the origin, so
`min_x = max_x` and the bounds check fails. -/
def gazeExPts : Fin 6 → ℤ × ℤ := fun _ => (0, 0)

/-- A trivial frame: all pixels dark, mask empty. -/
def gazeExGray : ℤ → ℤ → ℕ := fun _ _ => 0

/-- The trivial eye mask covering no pixel. -/
def gazeExMask : ℤ → ℤ → Bool := fun _ _ => false

/-- Claim C6 witness: the degenerate region returns the neutral default 1. -/
theorem gaze_ratio_sentinels_witness :
    get_gaze_ratio gazeExPts 10 10 gazeExGray gazeExMask = 1 :=
  (gaze_ratio_sentinels_spec gazeExPts 10 10 gazeExGray gazeExMask).1 (by decide)

/-- Claim C9: saving a session into a database whose rows do not already use
the fresh id, then retrieving it by the returned id, reproduces every
summary field and the focus-point time series in order (the series'
timestamps increase, as the 5-second collection timer produces them, so the
retrieval's `ORDER BY timestamp` returns them unpermuted). -/
theorem session_round_trip (db : Database) (d : SessionData)
    (hs : ∀ r ∈ db.sessions, r.id ≠ db.next_session_id)
    (hp : ∀ p ∈ db.points, p.session_id ≠ db.next_session_id)
    (hmono : d.focus_points.Pairwise (fun p q => p.timestamp < q.timestamp)) :
    get_session_details (save_session db d).1 (save_session db d).2 =
      some { id := db.next_session_id
             start_time := d.start_time
             end_time := d.end_time
             duration := d.duration
             distraction_count := d.distraction_count
             avg_distraction_time := d.avg_distraction_time
             focus_percentage := d.focus_percentage
             longest_focus_period := d.longest_focus_period
             focus_data := d.focus_data
             focus_points := d.focus_points } := by
  have hsid : (save_session db d).2 = db.next_session_id := rfl
  have hfind : ((save_session db d).1.sessions).find?
      (fun r => r.id == db.next_session_id) = some
      { id := db.next_session_id
        start_time := d.start_time
        end_time := d.end_time
        duration := d.duration
        distraction_count := d.distraction_count
        avg_distraction_time := d.avg_distraction_time
        focus_percentage := d.focus_percentage
        longest_focus_period := d.longest_focus_period
        focus_data := d.focus_data } := by
    show (db.sessions ++ [_]).find? _ = _
    rw [List.find?_append]
    have hnone : db.sessions.find?
        (fun r => r.id == db.next_session_id) = none := by
      rw [List.find?_eq_none]
      intro x hx
      simpa using hs x hx
    rw [hnone]
    simp
  have hfilter : ((save_session db d).1.points).filter
      (fun p => p.session_id == db.next_session_id) =
      d.focus_points.map (fun p =>
        ({ session_id := db.next_session_id
           timestamp := p.timestamp
           is_focused := if p.is_focused then 1 else 0
           gaze_direction := p.gaze_direction } : PointRow)) := by
    show (db.points ++ _).filter _ = _
    rw [List.filter_append]
    have h1 : db.points.filter
        (fun p => p.session_id == db.next_session_id) = [] := by
      rw [List.filter_eq_nil_iff]
      intro a ha
      simpa using hp a ha
    have h2 : (d.focus_points.map (fun p =>
        ({ session_id := db.next_session_id
           timestamp := p.timestamp
           is_focused := if p.is_focused then 1 else 0
           gaze_direction := p.gaze_direction } : PointRow))).filter
        (fun p => p.session_id == db.next_session_id) =
        d.focus_points.map (fun p =>
        ({ session_id := db.next_session_id
           timestamp := p.timestamp
           is_focused := if p.is_focused then 1 else 0
           gaze_direction := p.gaze_direction } : PointRow)) := by
      rw [List.filter_eq_self]
      intro a ha
      simp only [List.mem_map] at ha
      obtain ⟨p, -, rfl⟩ := ha
      simp
    rw [h1, h2, List.nil_append]
  have hsort : (d.focus_points.map (fun p =>
      ({ session_id := db.next_session_id
         timestamp := p.timestamp
         is_focused := if p.is_focused then 1 else 0
         gaze_direction := p.gaze_direction } : PointRow))).mergeSort
      (fun p q => p.timestamp ≤ q.timestamp) =
      d.focus_points.map (fun p =>
      ({ session_id := db.next_session_id
         timestamp := p.timestamp
         is_focused := if p.is_focused then 1 else 0
         gaze_direction := p.gaze_direction } : PointRow)) := by
    apply List.mergeSort_of_sorted
    rw [List.pairwise_map]
    refine hmono.imp ?_
    intro a b hab
    simpa using le_of_lt hab
  have hmap : (d.focus_points.map (fun p =>
      ({ session_id := db.next_session_id
         timestamp := p.timestamp
         is_focused := if p.is_focused then 1 else 0
         gaze_direction := p.gaze_direction } : PointRow))).map (fun p =>
      ({ timestamp := p.timestamp
         is_focused := p.is_focused != (0 : ℤ)
         gaze_direction := p.gaze_direction } : FocusPoint)) = d.focus_points := by
    rw [List.map_map]
    have hid : ∀ p ∈ d.focus_points, ((fun p =>
        ({ timestamp := p.timestamp
           is_focused := p.is_focused != (0 : ℤ)
           gaze_direction := p.gaze_direction } : FocusPoint)) ∘ (fun p =>
        ({ session_id := db.next_session_id
           timestamp := p.timestamp
           is_focused := if p.is_focused then 1 else 0
           gaze_direction := p.gaze_direction } : PointRow))) p = id p := by
      intro p _
      cases p with
      | mk t f g =>
          cases f <;> simp
    rw [List.map_congr_left hid, List.map_id]
  unfold get_session_details
  rw [hsid, hfind]
  simp only [hfilter, hsort, hmap]

/-- A two-point session record with increasing timestamps, to instantiate
the round-trip theorem. -/
def exSession : SessionData :=
  { start_time := 0
    end_time := 10000
    duration := 10
    distraction_count := 1
    avg_distraction_time := 2
    focus_percentage := 80
    longest_focus_period := 5
    focus_data := "snapshot"
    focus_points :=
      [ { timestamp := 0, is_focused := true, gaze_direction := "CENTER" },
        { timestamp := 5000, is_focused := false, gaze_direction := "LEFT" } ] }

/-- The empty database as `initialize_database` creates it. -/
def emptyDb : Database := { sessions := [], points := [], next_session_id := 1 }

/-- Claim C9 witness: saving `exSession` into the empty database and reading
it back by the returned id reproduces the summary and the ordered series. -/
theorem session_round_trip_witness :
    get_session_details (save_session emptyDb exSession).1
        (save_session emptyDb exSession).2 =
      some { id := 1
             start_time := 0
             end_time := 10000
             duration := 10
             distraction_count := 1
             avg_distraction_time := 2
             focus_percentage := 80
             longest_focus_period := 5
             focus_data := "snapshot"
             focus_points := exSession.focus_points } :=
  session_round_trip emptyDb exSession (by simp [emptyDb])
    (by simp [emptyDb]) (by decide)

end GazeDetector










